import Mathlib

/-!
Verification development for the markdown→PDF conversion server.

The TypeScript sources are shallowly embedded: pure helpers become Lean
functions over `List Char`/`String`/`Nat`/`Int`; effectful steps (file I/O,
the browser, the markdown engine, wall-clock time) become explicit
environment parameters and threaded state.  JavaScript semantics that the
code relies on are modeled explicitly: `||`-falsiness of the empty string,
`Array.filter(Boolean)`, global regex replacement, `Math.max(0, n - 1)`
clamping on the page counter (the counter is therefore an `Int` so the
clamp is meaningful).
-/

/-! ## JavaScript string and truthiness primitives -/

/-- JS truthiness of an optional string: `undefined` and `""` are falsy. -/
def jsTruthy (o : Option String) : Bool :=
  match o with
  | none => false
  | some s => !(s == "")

/-- `o || d` for an optional string, as used for default values. -/
def jsOr (o : Option String) (d : String) : String :=
  match o with
  | none => d
  | some s => if s == "" then d else s

/-- The ASCII part of the JS `\s` character class. -/
def jsIsSpace (c : Char) : Bool :=
  c == ' ' || c == '\t' || c == '\n' || c == '\r' || c == '\x0b' || c == '\x0c'

/-- `String.prototype.trim` over the ASCII whitespace characters. -/
def jsTrimList (cs : List Char) : List Char :=
  ((cs.dropWhile jsIsSpace).reverse.dropWhile jsIsSpace).reverse

/-- `String.prototype.trim`. -/
def jsTrim (s : String) : String :=
  String.mk (jsTrimList s.data)

/-- Does `nd` occur as a contiguous run inside `hay`? -/
def listContains (hay nd : List Char) : Bool :=
  match hay with
  | [] => nd.isEmpty
  | _ :: t => nd.isPrefixOf hay || listContains t nd

/-- Substring test on strings (used for error-message sniffing). -/
def strContains (s pat : String) : Bool :=
  listContains s.data pat.data

/-- Global replacement of a fixed nonempty pattern, as done by
`String.prototype.replace` with a `g`-flagged literal regex: leftmost match,
the replacement is not rescanned, scanning resumes after the matched text.
The recursion is bounded by the input length; every step consumes at least
one character, so `fuel := input.length` never runs out. -/
def replaceAllAux (nd rep : List Char) : Nat → List Char → List Char
  | 0, hay => hay
  | _ + 1, [] => []
  | fuel + 1, c :: t =>
    if !nd.isEmpty && nd.isPrefixOf (c :: t) then
      rep ++ replaceAllAux nd rep fuel ((c :: t).drop nd.length)
    else
      c :: replaceAllAux nd rep fuel t

/-- Replacement of every occurrence of `nd` in `hay` by `rep`. -/
def replaceAll (nd rep hay : List Char) : List Char :=
  replaceAllAux nd rep hay.length hay

/-- String-level wrapper for `replaceAll`. -/
def jsReplaceAll (s pat rep : String) : String :=
  String.mk (replaceAll pat.data rep.data s.data)

/-! ## `src/utils/format-utils.ts` -/

/-- `Number.prototype.toFixed(1)` for the nonnegative ratio `num / den`,
modeled by rounding the tenths digit (the sources only ever format
nonnegative byte counts, where this agrees with the float behavior). -/
def toFixed1 (num den : Nat) : String :=
  let scaled := (num * 10 + den / 2) / den
  toString (scaled / 10) ++ "." ++ toString (scaled % 10)

/-- `formatFileSize` from `format-utils.ts`. -/
def formatFileSize (bytes : Nat) : String :=
  if bytes = 0 then "0 B"
  else if bytes < 1024 then toString bytes ++ " B"
  else if bytes < 1024 * 1024 then toFixed1 bytes 1024 ++ " KB"
  else toFixed1 bytes (1024 * 1024) ++ " MB"

/-- A JS `string | number` value, as accepted for `{page}`/`{total}`. -/
inductive JsStrNum where
  | str (s : String)
  | num (n : Nat)
deriving DecidableEq

/-- `String(v)` for a `string | number` value. -/
def jsToString (v : JsStrNum) : String :=
  match v with
  | .str s => s
  | .num n => toString n

/-- `String(v || '')`: falsy values (`undefined`, `""`, `0`) become `""`. -/
def jsStrOrEmpty (o : Option JsStrNum) : String :=
  match o with
  | none => ""
  | some (.str s) => if s == "" then "" else s
  | some (.num n) => if n == 0 then "" else toString n

/-- The `variables` argument of `replaceTemplateVariables`. -/
structure TemplateVariables where
  page : Option JsStrNum := none
  total : Option JsStrNum := none
  date : Option String := none
  title : Option String := none
deriving DecidableEq

/-- `replaceTemplateVariables` from `format-utils.ts`.  `currentDate` models
the value of `new Date().toLocaleDateString()` at call time. -/
def replaceTemplateVariables (template : String) (vars : TemplateVariables)
    (currentDate : String) : String :=
  let r1 := jsReplaceAll template "\x7bpage\x7d" (jsStrOrEmpty vars.page)
  let r2 := jsReplaceAll r1 "\x7btotal\x7d" (jsStrOrEmpty vars.total)
  let r3 := jsReplaceAll r2 "\x7bdate\x7d" (jsOr vars.date currentDate)
  jsReplaceAll r3 "\x7btitle\x7d" (jsOr vars.title "Document")

/-! ## `src/utils/error-handler.ts` -/

/-- `getErrorSuggestion`: finite pattern match over the lower-cased message. -/
def getErrorSuggestion (message : String) : String :=
  let m := message.toLower
  if strContains m "enoent" || strContains m "no such file" then
    "File not found. Check if the path is correct and the file exists. Use an absolute path for reliability."
  else if strContains m "eacces" || strContains m "permission denied" then
    "Permission denied. Ensure you have write access to the output directory. Try a different output path."
  else if strContains m "timeout" || strContains m "timed out" then
    "Request timed out. Try setting wait_for_network_idle: false or check your network connection."
  else if strContains m "fetch" || strContains m "network" then
    "Network error while fetching remote content. Check the URL and your internet connection."
  else if strContains m "markdown" || strContains m "parse" then
    "Invalid markdown syntax. Review the markdown content for formatting errors."
  else if strContains m "browser" || strContains m "chromium" then
    "Browser error. Ensure Playwright Chromium is installed: pnpm exec playwright install chromium"
  else if strContains m "enospc" || strContains m "no space" then
    "Not enough disk space. Free up some space and try again."
  else if strContains m "invalid" || strContains m "validation" then
    "Invalid input parameters. Check the parameter values and try again."
  else
    "An unexpected error occurred. Check the error message for details and try again."

/-- Result record of `validateInputSource`. -/
structure ValidationResult where
  valid : Bool
  error : Option String
  suggestion : Option String
deriving DecidableEq

/-- `validateInputSource` from `error-handler.ts`.
`[a, b, c].filter(Boolean)` keeps exactly the truthy entries, so a provided
empty string does not count as a source. -/
def validateInputSource (markdownContent markdownFilePath markdownUrl : Option String) :
    ValidationResult :=
  let sources := [markdownContent, markdownFilePath, markdownUrl].filter jsTruthy
  if sources.length = 0 then
    { valid := false
      error := some "No input source provided"
      suggestion := some "Provide one of: markdown_content, markdown_file_path, or markdown_url" }
  else if sources.length > 1 then
    { valid := false
      error := some "Multiple input sources provided"
      suggestion := some "Provide only ONE of: markdown_content, markdown_file_path, or markdown_url" }
  else
    { valid := true, error := none, suggestion := none }

/-! ## `src/renderer/html-template.ts` -/

/-- Does `cs` start with the closing tag `</hd>` (case-insensitive `h`)? -/
def closeTagAt (d : Char) (cs : List Char) : Bool :=
  match cs with
  | '<' :: '/' :: h :: d2 :: '>' :: _ => (h == 'h' || h == 'H') && d2 == d
  | _ => false

/-- The lazy body capture `(.*?)<\/hN>` of the heading regex: the shortest
run of non-newline characters followed by the matching closing tag.
Returns the body and the remainder after the closing tag. -/
def findClose (d : Char) : List Char → List Char → Option (List Char × List Char)
  | _, [] => none
  | acc, c :: rest =>
    if closeTagAt d (c :: rest) then some (acc.reverse, (c :: rest).drop 5)
    else if c == '\n' || c == '\r' then none
    else findClose d (c :: acc) rest

/-- One attempt of the regex `<h([1-6])[^>]*>(.*?)<\/h\1>` (flags `gi`) at the
current position: `<h` or `<H`, a digit 1–6, greedy non-`>` attributes, `>`,
then the lazy body up to the matching close tag.  Returns level, raw body and
the remainder after the match. -/
def matchHeadingAt (cs : List Char) : Option (Nat × List Char × List Char) :=
  match cs with
  | '<' :: h :: d :: rest =>
    if (h = 'h' ∨ h = 'H') ∧ '1' ≤ d ∧ d ≤ '6' then
      match rest.dropWhile (fun x => x != '>') with
      | '>' :: rest2 =>
        match findClose d [] rest2 with
        | some (body, rest3) => some (d.toNat - 48, body, rest3)
        | none => none
      | _ => none
    else none
  | _ => none

/-- `replace(/\s+/g, '-')`: collapse each maximal whitespace run to one `-`. -/
def collapseWsAux (prevSpace : Bool) : List Char → List Char
  | [] => []
  | c :: rest =>
    if jsIsSpace c then
      if prevSpace then collapseWsAux true rest
      else '-' :: collapseWsAux true rest
    else c :: collapseWsAux false rest

/-- The JS `\w` class (`[A-Za-z0-9_]`) extended with `-`, i.e. the characters
kept by `replace(/[^\w-]/g, '')`. -/
def isWordOrHyphen (c : Char) : Bool :=
  (decide (97 ≤ c.toNat) && decide (c.toNat ≤ 122)) ||
  (decide (65 ≤ c.toNat) && decide (c.toNat ≤ 90)) ||
  (decide (48 ≤ c.toNat) && decide (c.toNat ≤ 57)) ||
  c == '_' || c == '-'

/-- The heading-anchor slug: lower-case, collapse whitespace runs to single
hyphens, strip non-word non-hyphen characters — in that order, as in
`generateToc` and `addHeadingIds`. -/
def slugifyList (cs : List Char) : List Char :=
  (collapseWsAux false (cs.map Char.toLower)).filter isWordOrHyphen

/-- String-level slug derivation. -/
def slugify (s : String) : String :=
  String.mk (slugifyList s.data)

/-- `replace(/<[^>]*>/g, '')`: remove each `<`…`>` run; a `<` with no later
`>` cannot be matched by the regex and is kept.  The recursion is bounded
by the input length; every step consumes at least one character. -/
def stripTagsAux : Nat → List Char → List Char
  | 0, cs => cs
  | _ + 1, [] => []
  | fuel + 1, c :: t =>
    if c == '<' then
      match t.dropWhile (fun x => x != '>') with
      | '>' :: rest => stripTagsAux fuel rest
      | _ => c :: stripTagsAux fuel t
    else c :: stripTagsAux fuel t

/-- Tag removal over a whole character list. -/
def stripTags (cs : List Char) : List Char :=
  stripTagsAux cs.length cs

/-- A heading record as accumulated by the `generateToc` loop. -/
structure Heading where
  level : Nat
  text : String
  id : String
deriving DecidableEq

/-- Build the heading record from a raw regex body: strip inner tags, trim,
and derive the anchor id from the cleaned text. -/
def mkHeading (lvl : Nat) (body : List Char) : Heading :=
  let text := jsTrimList (stripTags body)
  { level := lvl, text := String.mk text, id := String.mk (slugifyList text) }

/-- All matches of the heading regex, in order, with raw bodies.  The
recursion is bounded by the input length; every step consumes at least one
character, so `fuel := input.length` never runs out. -/
def scanHeadings : Nat → List Char → List (Nat × List Char)
  | 0, _ => []
  | _ + 1, [] => []
  | fuel + 1, c :: rest =>
    match matchHeadingAt (c :: rest) with
    | some (lvl, body, rest2) => (lvl, body) :: scanHeadings fuel rest2
    | none => scanHeadings fuel rest

/-- The extraction loop of `generateToc`: each regex match whose level is at
most `maxDepth` contributes a heading record; deeper matches are skipped but
still advance the scan, exactly as in the source. -/
def tocScanAux (maxDepth : Nat) : Nat → List Char → List Heading
  | 0, _ => []
  | _ + 1, [] => []
  | fuel + 1, c :: rest =>
    match matchHeadingAt (c :: rest) with
    | some (lvl, body, rest2) =>
      if lvl ≤ maxDepth then mkHeading lvl body :: tocScanAux maxDepth fuel rest2
      else tocScanAux maxDepth fuel rest2
    | none => tocScanAux maxDepth fuel rest

/-- The heading list collected by `generateToc` for a document. -/
def tocHeadings (htmlContent : String) (maxDepth : Nat) : List Heading :=
  tocScanAux maxDepth htmlContent.data.length htmlContent.data

/-- All heading matches of a document, before the depth filter. -/
def extractHeadings (htmlContent : String) : List (Nat × List Char) :=
  scanHeadings htmlContent.data.length htmlContent.data

/-- The open/close `<ul>` adjustment the loop performs between the current
nesting level and the next heading's level. -/
def tocAdjust (cur lvl : Nat) : List Char :=
  if cur < lvl then (List.replicate (lvl - cur) "<ul>".data).flatten
  else (List.replicate (cur - lvl) "</ul>".data).flatten

/-- One `<li>` entry of the table of contents. -/
def tocItemHtml (h : Heading) : List Char :=
  "<li><a href=\"#".data ++ h.id.data ++ "\">".data ++ h.text.data ++ "</a></li>".data

/-- The body of the `generateToc` while-loop, starting at nesting level
`cur`; the base case closes the remaining open lists down to level 1. -/
def tocItems : List Heading → Nat → List Char
  | [], cur => (List.replicate (cur - 1) "</ul>".data).flatten
  | h :: rest, cur => tocAdjust cur h.level ++ tocItemHtml h ++ tocItems rest h.level

/-- `generateToc` from `html-template.ts`. -/
def generateToc (htmlContent : String) (maxDepth : Nat) : String :=
  let headings := tocHeadings htmlContent maxDepth
  if headings.isEmpty then ""
  else
    String.mk
      ("<nav class=\"toc\"><div class=\"toc-title\">Table of Contents</div><ul>".data
        ++ tocItems headings 1 ++ "</ul></nav>".data)

/-- The replacement callback of `addHeadingIds`: each heading match is
rewritten to `<hN id="slug">body</hN>` (original attributes are dropped);
unmatched text is copied through. -/
def addHeadingIdsAux : Nat → List Char → List Char
  | 0, cs => cs
  | _ + 1, [] => []
  | fuel + 1, c :: rest =>
    match matchHeadingAt (c :: rest) with
    | some (lvl, body, rest2) =>
      let plainText := jsTrimList (stripTags body)
      "<h".data ++ (toString lvl).data ++ " id=\"".data ++ slugifyList plainText
        ++ "\">".data ++ body ++ "</h".data ++ (toString lvl).data ++ ">".data
        ++ addHeadingIdsAux fuel rest2
    | none => c :: addHeadingIdsAux fuel rest

/-- `addHeadingIds` from `html-template.ts`. -/
def addHeadingIds (htmlContent : String) : String :=
  String.mk (addHeadingIdsAux htmlContent.data.length htmlContent.data)

/-- Options record of `generateHtmlTemplate`. -/
structure HtmlTemplateOptions where
  content : String
  themeCss : String
  codeHighlightCss : String
  customCss : String
  includeToc : Bool
  tocDepth : Nat
deriving DecidableEq

/-- The document template up to the theme CSS insertion point. -/
def htmlShellA : String :=
  "<!DOCTYPE html>\n<html lang=\"en\">\n<head>\n  <meta charset=\"UTF-8\">\n  <meta name=\"viewport\" content=\"width=device-width, initial-scale=1.0\">\n  <title>Markdown PDF</title>\n  <style>\n    /* Theme styles */\n    "

/-- Template segment between theme CSS and code-highlight CSS. -/
def htmlShellB : String :=
  "\n\n    /* Code highlighting */\n    "

/-- Template segment between code-highlight CSS and custom CSS. -/
def htmlShellC : String :=
  "\n\n    /* Custom CSS */\n    "

/-- Static template tail after the custom CSS: TOC styling, print rules, the
highlight.js script, and the body opening, up to the TOC insertion point. -/
def htmlShellD : String :=
  "\n\n    /* TOC styling */\n    .toc \x7b\n      background: #f6f8fa;\n      padding: 16px;\n      border-radius: 6px;\n      margin-bottom: 24px;\n      page-break-after: avoid;\n    \x7d\n    .toc-title \x7b\n      font-size: 1.2em;\n      font-weight: 600;\n      margin-bottom: 8px;\n    \x7d\n    .toc ul \x7b\n      list-style: none;\n      padding-left: 16px;\n      margin: 4px 0;\n    \x7d\n    .toc ul ul \x7b\n      padding-left: 20px;\n    \x7d\n    .toc li \x7b\n      margin: 4px 0;\n    \x7d\n    .toc a \x7b\n      text-decoration: none;\n      color: #0969da;\n    \x7d\n    .toc a:hover \x7b\n      text-decoration: underline;\n    \x7d\n\n    /* Print optimizations */\n    @media print \x7b\n      .page-break \x7b\n        page-break-before: always;\n      \x7d\n      h1, h2, h3, h4, h5, h6 \x7b\n        page-break-after: avoid;\n      \x7d\n      pre \x7b\n        page-break-inside: avoid;\n      \x7d\n      img \x7b\n        max-width: 100%;\n        page-break-inside: avoid;\n      \x7d\n      table \x7b\n        page-break-inside: avoid;\n      \x7d\n      a \x7b\n        color: #0969da;\n        text-decoration: underline;\n      \x7d\n    \x7d\n  </style>\n\n  <!-- Highlight.js -->\n  <script src=\"https://cdnjs.cloudflare.com/ajax/libs/highlight.js/11.9.0/highlight.min.js\"></script>\n  <script>\n    document.addEventListener(\x27DOMContentLoaded\x27, () => \x7b\n      // Apply syntax highlighting to all code blocks\n      document.querySelectorAll(\x27pre code\x27).forEach((block) => \x7b\n        hljs.highlightElement(block);\n      \x7d);\n    \x7d);\n  </script>\n</head>\n<body>\n  <div class=\"markdown-body\">\n    "

/-- Closing template segment after the content. -/
def htmlShellE : String :=
  "\n  </div>\n</body>\n</html>"

/-- `generateHtmlTemplate` from `html-template.ts`: adds heading ids, then
optionally generates the TOC from the id-annotated content, and splices
everything into the document shell. -/
def generateHtmlTemplate (options : HtmlTemplateOptions) : String :=
  let contentWithIds := addHeadingIds options.content
  let toc := if options.includeToc then generateToc contentWithIds options.tocDepth else ""
  htmlShellA ++ options.themeCss ++ htmlShellB ++ options.codeHighlightCss ++ htmlShellC
    ++ options.customCss ++ htmlShellD ++ toc ++ "\n    " ++ contentWithIds ++ htmlShellE

/-- `HeaderFooter` configuration (`left`, `center`, `right` cells). -/
structure HeaderFooter where
  left : Option String := none
  center : Option String := none
  right : Option String := none
deriving DecidableEq

/-- Default `style` argument of `formatHeaderFooter`. -/
def defaultHeaderFooterStyle : String :=
  "font-size: 10px; padding: 5px 20px; width: 100%;"

/-- `formatHeaderFooter` from `html-template.ts`: each of the three cells is
passed through `replaceTemplateVariables` (with the empty variables object)
before the string is handed to the renderer as a header/footer template. -/
def formatHeaderFooter (config : HeaderFooter) (style : String) (currentDate : String) : String :=
  let left := replaceTemplateVariables (jsOr config.left "") {} currentDate
  let center := replaceTemplateVariables (jsOr config.center "") {} currentDate
  let right := replaceTemplateVariables (jsOr config.right "") {} currentDate
  "\n    <div style=\"" ++ style
    ++ "\">\n      <table style=\"width: 100%; border: none;\">\n        <tr>\n          <td style=\"text-align: left; width: 33%;\">"
    ++ left ++ "</td>\n          <td style=\"text-align: center; width: 34%;\">" ++ center
    ++ "</td>\n          <td style=\"text-align: right; width: 33%;\">" ++ right
    ++ "</td>\n        </tr>\n      </table>\n    </div>\n  "

/-! ## `src/renderer/pdf-generator.ts` — browser instance management -/

/-- `MAX_CONCURRENT_PAGES` (module constant). -/
def MAX_CONCURRENT_PAGES : Int := 10

/-- The module-level mutable browser state: `browserInstance` and the
`activePages` counter.  The counter is an `Int` so that the source's
`Math.max(0, activePages - 1)` clamp is modeled without information loss. -/
structure RMState where
  browser : Option Unit
  activePages : Int
deriving DecidableEq

/-- Error message thrown when `chromium.launch` fails. -/
def launchFailMessage (e : String) : String :=
  "Failed to launch browser: " ++ e
    ++ ". Ensure Playwright Chromium is installed: pnpm exec playwright install chromium"

/-- Error message thrown by `acquirePage` when the quota is saturated. -/
def quotaExceededMessage : String :=
  "Maximum concurrent pages (" ++ toString MAX_CONCURRENT_PAGES
    ++ ") reached. Too many PDF conversions in progress. Please try again later."

/-- Per-request statistics gathered by `page.evaluate` in `gatherStats`. -/
structure RawStats where
  codeBlocks : Nat
  images : Nat
  headings : Nat
  missingImages : List String
deriving DecidableEq

/-- Outcomes of the effectful steps of one `generatePdf` request (file
system, markdown engine, theme store, browser).  A field of function type
models a call whose outcome may depend on its argument. -/
structure PdfEnv where
  /-- `isBrowserHealthy` verdict for an existing `browserInstance`. -/
  browserHealthy : Bool
  /-- `chromium.launch` outcome. -/
  launch : Except String Unit
  /-- `browser.newPage` outcome. -/
  newPage : Except String Unit
  /-- `ensureOutputDirectory` outcome for the output path. -/
  ensureDir : String → Except String Unit
  /-- `marked(markdownContent, ...)` outcome. -/
  marked : String → Except String String
  /-- `loadTheme(theme)` outcome. -/
  loadTheme : String → Except String String
  /-- `loadCodeTheme(codeTheme)`: never throws, a CDN failure returns the
  static fallback CSS. -/
  loadCodeTheme : String → String
  /-- `page.setViewportSize` outcome. -/
  setViewport : Except String Unit
  /-- `page.setContent(fullHtml, ...)` outcome. -/
  setContent : String → Except String Unit
  /-- `page.waitForFunction` (highlight settling) verdict; a timeout is
  swallowed with a console warning either way. -/
  highlightSettled : Bool
  /-- `page.pdf(...)` outcome: the produced PDF byte length. -/
  pdf : Except String Nat
  /-- `page.evaluate` outcome inside `gatherStats`. -/
  statsEval : Except String RawStats
  /-- `new Date().toLocaleDateString()` at header/footer formatting time. -/
  currentDate : String
  /-- Wall-clock milliseconds `Date.now() - startTime` at completion. -/
  duration : Nat

/-- The body of `getBrowser` as executed by a single caller with no
interleaving: an existing healthy instance is reused; an unhealthy or
missing instance triggers a launch, which either publishes a new instance
or leaves it null and throws `launchFailMessage`.  (The launch-promise
single-flight behavior under concurrency is modeled separately by the
`GState` machine below.) -/
def getBrowserSeq (env : PdfEnv) (s : RMState) : Except String Unit × RMState :=
  match s.browser with
  | some _ =>
    if env.browserHealthy then (.ok (), s)
    else
      match env.launch with
      | .ok _ => (.ok (), { s with browser := some () })
      | .error e => (.error (launchFailMessage e), { s with browser := none })
  | none =>
    match env.launch with
    | .ok _ => (.ok (), { s with browser := some () })
    | .error e => (.error (launchFailMessage e), { s with browser := none })

/-- `acquirePage` from `pdf-generator.ts`: the quota check precedes any
browser interaction; on success a page is opened and the counter is
incremented. -/
def acquirePage (env : PdfEnv) (s : RMState) : Except String Unit × RMState :=
  if MAX_CONCURRENT_PAGES ≤ s.activePages then (.error quotaExceededMessage, s)
  else
    match getBrowserSeq env s with
    | (.error e, s1) => (.error e, s1)
    | (.ok _, s1) =>
      match env.newPage with
      | .error e => (.error e, s1)
      | .ok _ => (.ok (), { s1 with activePages := s1.activePages + 1 })

/-- `releasePage` from `pdf-generator.ts`: a `page.close()` error is caught
and only logged (the page may already be closed); the `finally` block then
always decrements the counter, clamped at zero via
`Math.max(0, activePages - 1)`.  There is no per-handle released flag, so
every invocation decrements. -/
def releasePage (s : RMState) : RMState :=
  { s with activePages := max 0 (s.activePages - 1) }

/-- `closeBrowser`: best-effort close of the instance, clears it and the
launch promise, resets the counter. -/
def closeBrowser (_s : RMState) : RMState :=
  { browser := none, activePages := 0 }

/-! ## `src/renderer/pdf-generator.ts` — PDF generation -/

/-- The stats record returned by `gatherStats`. -/
structure PdfStats where
  pages : Nat
  codeBlocks : Nat
  images : Nat
  headings : Nat
  missingImages : List String
  warnings : List String
deriving DecidableEq

/-- `gatherStats` from `pdf-generator.ts`: runs `page.evaluate` to count
code blocks, images and headings and detect missing images.  A failure of
the evaluation propagates — there is no try/catch around it.  Playwright
does not provide a page count, so `pages` is the literal `0`. -/
def gatherStats (env : PdfEnv) : Except String PdfStats :=
  match env.statsEval with
  | .error e => .error e
  | .ok raw =>
    let warnings : List String :=
      if raw.missingImages.length > 0 then
        [toString raw.missingImages.length ++ " image(s) failed to load: "
          ++ String.intercalate ", " raw.missingImages]
      else []
    .ok { pages := 0, codeBlocks := raw.codeBlocks, images := raw.images,
          headings := raw.headings, missingImages := raw.missingImages,
          warnings := warnings }

/-- `estimatePageCount`: `Math.max(1, Math.ceil(fileSize / (75 * 1024)))`,
with the byte size (from `getFileSize`) passed as the argument. -/
def estimatePageCount (fileSize : Nat) : Nat :=
  max 1 ((fileSize + 75 * 1024 - 1) / (75 * 1024))

/-- Page margins of a request. -/
structure Margin where
  top : Option String := none
  bottom : Option String := none
  left : Option String := none
  right : Option String := none
deriving DecidableEq

/-- `PdfGenerationConfig` from the schema types.  `scale` is carried
opaquely (its fractional range is enforced by the schema validator, outside
the core). -/
structure PdfGenerationConfig where
  markdownContent : String
  outputPath : String
  theme : String
  customCss : Option String := none
  pageFormat : String := "A4"
  pageOrientation : String := "portrait"
  margin : Option Margin := none
  includeToc : Bool := false
  tocDepth : Nat := 3
  codeTheme : String := "github"
  header : Option HeaderFooter := none
  footer : Option HeaderFooter := none
  scale : Nat := 1
  waitForNetworkIdle : Bool := true
  baseUrl : Option String := none
  responseFormat : String := "concise"
deriving DecidableEq

/-- The argument record handed to `page.pdf`. -/
structure PdfCallArgs where
  path : String
  format : String
  landscape : Bool
  marginTop : String
  marginBottom : String
  marginLeft : String
  marginRight : String
  scale : Nat
  displayHeaderFooter : Bool
  headerTemplate : Option String
  footerTemplate : Option String
deriving DecidableEq

/-- `metadata` of a detailed success response. -/
structure ResponseMetadata where
  theme : String
  page_format : String
  includes_toc : Bool
  code_blocks : Nat
  images : Nat
  headings : Nat
  warnings : List String
deriving DecidableEq

/-- A success response of `generatePdf` (concise, or detailed when
`metadata` is populated). -/
structure GenResponse where
  status : String
  output_path : String
  file_size : String
  pages : Nat
  duration_ms : Nat
  metadata : Option ResponseMetadata
deriving DecidableEq

/-- The world threaded through a request: the browser module state plus two
instrumentation fields — the number of `releasePage` invocations performed
and the `page.pdf` calls issued (these observe the run, they are not part
of the program's own state). -/
structure PState where
  rm : RMState
  releaseCalls : Nat
  pdfCalls : List PdfCallArgs
deriving DecidableEq

/-- One `releasePage` invocation as seen from the pipeline. -/
def doReleasePage (w : PState) : PState :=
  { w with rm := releasePage w.rm, releaseCalls := w.releaseCalls + 1 }

/-- Models the `catch` plus `finally` blocks of `generatePdf` for an error
thrown while the local `page` variable still holds a page: the catch block
releases the page but does NOT clear the variable, so the finally block's
defensive release executes `releasePage` a second time. -/
def errorCleanup (w : PState) : PState :=
  doReleasePage (doReleasePage w)

/-- `generatePdf` from `pdf-generator.ts`.  Failures before page acquisition
return with the state untouched (the catch and finally blocks see
`page === null`); failures after acquisition run `errorCleanup`; the
success path releases once and sets `page = null`, so the finally block
does nothing. -/
def generatePdf (env : PdfEnv) (config : PdfGenerationConfig) (w0 : PState) :
    Except String GenResponse × PState :=
  match env.ensureDir config.outputPath with
  | .error e => (.error e, w0)
  | .ok _ =>
  match env.marked config.markdownContent with
  | .error e => (.error e, w0)
  | .ok htmlContent =>
  match env.loadTheme config.theme with
  | .error e => (.error e, w0)
  | .ok themeCss =>
  let codeHighlightCss := env.loadCodeTheme config.codeTheme
  let fullHtml := generateHtmlTemplate
    { content := htmlContent, themeCss := themeCss, codeHighlightCss := codeHighlightCss,
      customCss := jsOr config.customCss "", includeToc := config.includeToc,
      tocDepth := config.tocDepth }
  match acquirePage env w0.rm with
  | (.error e, s1) => (.error e, { w0 with rm := s1 })
  | (.ok _, s1) =>
  let w1 : PState := { w0 with rm := s1 }
  match env.setViewport with
  | .error e => (.error e, errorCleanup w1)
  | .ok _ =>
  match env.setContent fullHtml with
  | .error e => (.error e, errorCleanup w1)
  | .ok _ =>
  -- step 7: highlight settling; a timeout only logs a warning and proceeds
  let margin := config.margin.getD {}
  let args : PdfCallArgs :=
    { path := config.outputPath
      format := config.pageFormat
      landscape := config.pageOrientation == "landscape"
      marginTop := jsOr margin.top "2cm"
      marginBottom := jsOr margin.bottom "2cm"
      marginLeft := jsOr margin.left "2cm"
      marginRight := jsOr margin.right "2cm"
      scale := config.scale
      displayHeaderFooter := config.header.isSome || config.footer.isSome
      headerTemplate := config.header.map
        (fun h => formatHeaderFooter h defaultHeaderFooterStyle env.currentDate)
      footerTemplate := config.footer.map
        (fun f => formatHeaderFooter f defaultHeaderFooterStyle env.currentDate) }
  let w2 : PState := { w1 with pdfCalls := w1.pdfCalls ++ [args] }
  match env.pdf with
  | .error e => (.error e, errorCleanup w2)
  | .ok pdfLen =>
  match gatherStats env with
  | .error e => (.error e, errorCleanup w2)
  | .ok stats =>
  let w3 := doReleasePage w2
  let fileSize := formatFileSize pdfLen
  if config.responseFormat == "detailed" then
    (.ok { status := "success", output_path := config.outputPath, file_size := fileSize,
           pages := stats.pages, duration_ms := env.duration,
           metadata := some { theme := config.theme, page_format := config.pageFormat,
                              includes_toc := config.includeToc,
                              code_blocks := stats.codeBlocks, images := stats.images,
                              headings := stats.headings, warnings := stats.warnings } }, w3)
  else
    (.ok { status := "success", output_path := config.outputPath, file_size := fileSize,
           pages := stats.pages, duration_ms := env.duration, metadata := none }, w3)

/-! ## `src/tools/convert.ts` -/

/-- The validated tool input (`MarkdownToPdfInput`). -/
structure MarkdownToPdfInput where
  markdown_content : Option String := none
  markdown_file_path : Option String := none
  markdown_url : Option String := none
  output_path : String
  theme : String := "github"
  custom_css : Option String := none
  page_format : String := "A4"
  page_orientation : String := "portrait"
  margin : Option Margin := none
  include_toc : Bool := false
  toc_depth : Nat := 3
  code_theme : String := "github"
  header : Option HeaderFooter := none
  footer : Option HeaderFooter := none
  scale : Nat := 1
  wait_for_network_idle : Bool := true
  base_url : Option String := none
  response_format : String := "concise"
deriving DecidableEq

/-- Outcomes of the content-acquisition collaborators of `convert.ts`. -/
structure ConvertEnv where
  /-- `readMarkdownFile(path)` outcome. -/
  readMarkdownFile : String → Except String String
  /-- `fetchMarkdownUrl(url)` outcome. -/
  fetchMarkdownUrl : String → Except String String

/-- `MarkdownToPdfResponse`: a success payload or a structured error. -/
inductive ConvertResponse where
  | success (r : GenResponse)
  | error (message suggestion : String)
deriving DecidableEq

/-- `createErrorResponse` from `error-handler.ts` (the optional debug
details are not modeled). -/
def createErrorResponse (message : String) : ConvertResponse :=
  .error message (getErrorSuggestion message)

/-- Step 2 of `convertMarkdownToPdf`: obtain the markdown from the one
truthy source.  An acquisition failure is caught locally and returned as a
structured error response. -/
def resolveContent (cenv : ConvertEnv) (input : MarkdownToPdfInput) :
    ConvertResponse ⊕ String :=
  if jsTruthy input.markdown_content then .inr (input.markdown_content.getD "")
  else if jsTruthy input.markdown_file_path then
    match cenv.readMarkdownFile (input.markdown_file_path.getD "") with
    | .ok s => .inr s
    | .error e => .inl (createErrorResponse e)
  else if jsTruthy input.markdown_url then
    match cenv.fetchMarkdownUrl (input.markdown_url.getD "") with
    | .ok s => .inr s
    | .error e => .inl (createErrorResponse e)
  else
    .inl (.error "No input source provided"
      "Provide one of: markdown_content, markdown_file_path, or markdown_url")

/-- Step 4 of `convertMarkdownToPdf`: assemble the `PdfGenerationConfig`. -/
def buildConfig (input : MarkdownToPdfInput) (markdownContent : String) :
    PdfGenerationConfig :=
  { markdownContent := markdownContent
    outputPath := input.output_path
    theme := input.theme
    customCss := input.custom_css
    pageFormat := input.page_format
    pageOrientation := input.page_orientation
    margin := input.margin
    includeToc := input.include_toc
    tocDepth := input.toc_depth
    codeTheme := input.code_theme
    header := input.header
    footer := input.footer
    scale := input.scale
    waitForNetworkIdle := input.wait_for_network_idle
    baseUrl := input.base_url
    responseFormat := input.response_format }

/-- `convertMarkdownToPdf` from `convert.ts`: validate that exactly one
source is truthy, resolve the content, reject blank content, then run the
pipeline; a pipeline error is caught and converted to a structured error
response. -/
def convertMarkdownToPdf (cenv : ConvertEnv) (penv : PdfEnv)
    (input : MarkdownToPdfInput) (w : PState) : ConvertResponse × PState :=
  let validation := validateInputSource input.markdown_content
    input.markdown_file_path input.markdown_url
  if !validation.valid then
    (.error (validation.error.getD "") (validation.suggestion.getD ""), w)
  else
    match resolveContent cenv input with
    | .inl resp => (resp, w)
    | .inr markdownContent =>
      if jsTrim markdownContent == "" then
        (.error "Markdown content is empty"
          "Provide non-empty markdown content to convert", w)
      else
        match generatePdf penv (buildConfig input markdownContent) w with
        | (.ok r, w1) => (.success r, w1)
        | (.error e, w1) => (createErrorResponse e, w1)

/-! ## Single-flight launch: the `getBrowser` concurrency model

The cooperative event loop is modeled as an interleaving of atomic steps.
A step boundary exists exactly at each `await` of the source; the
synchronous prefix of `getBrowser` — checking `browserLaunchPromise`,
checking `browserInstance`, and (when both are absent) creating and
assigning the launch promise — contains no `await` and is therefore one
atomic step. -/

/-- What a `getBrowser` caller eventually returns: the instance it got
(identified by the id of the launch that produced it), or the launch
failure it observed. -/
inductive LaunchResult where
  | got (sessionId : Nat)
  | failure (msg : String)
deriving DecidableEq

/-- Where one concurrent `getBrowser` caller currently is. -/
inductive CallerPhase where
  | start
  | waiting (launchId : Nat)
  | checkingHealth (sessionId : Nat)
  | done (r : LaunchResult)
deriving DecidableEq

/-- Pointwise update of the caller map. -/
def updateCaller (f : Nat → CallerPhase) (i : Nat) (v : CallerPhase) :
    Nat → CallerPhase :=
  fun j => if j = i then v else f j

/-- Global browser-module state under concurrent `getBrowser` calls:
`browserInstance` (identified by the id of the launch that produced it),
`browserLaunchPromise` (with the id of the in-flight launch), the number of
launches attempted so far (doubling as the next launch id), and one phase
per caller. -/
structure GState where
  session : Option Nat
  ticket : Option Nat
  launchCount : Nat
  callers : Nat → CallerPhase

/-- No instance, no in-flight launch, every caller about to run
`getBrowser`. -/
def initGState : GState :=
  { session := none, ticket := none, launchCount := 0, callers := fun _ => .start }

/-- The synchronous prefix of `getBrowser`, executed atomically by caller
`i`: a caller finding a launch promise awaits that same promise; a caller
finding an instance (and no promise) suspends into the health check
(`isBrowserHealthy` awaits); a caller finding neither creates the launch,
assigns the promise and awaits it — all in one step, since this path
contains no `await`. -/
def startStep (s : GState) (i : Nat) : GState :=
  match s.callers i with
  | .start =>
    match s.ticket with
    | some l => { s with callers := updateCaller s.callers i (.waiting l) }
    | none =>
      match s.session with
      | some sid => { s with callers := updateCaller s.callers i (.checkingHealth sid) }
      | none =>
        { s with ticket := some s.launchCount
                 launchCount := s.launchCount + 1
                 callers := updateCaller s.callers i (.waiting s.launchCount) }
  | _ => s

/-- Resolution of an outstanding health check.  In the initialization
scenario modeled here the published instance stays connected, so the check
succeeds and the caller returns that instance (crash recovery after
publication is a separate scenario, outside this claim). -/
def healthStep (s : GState) (i : Nat) : GState :=
  match s.callers i with
  | .checkingHealth sid => { s with callers := updateCaller s.callers i (.done (.got sid)) }
  | _ => s

/-- Outcome of an in-flight `chromium.launch`. -/
inductive LaunchOutcome where
  | ok
  | failed (msg : String)
deriving DecidableEq

/-- The settled value every awaiter of launch `l` observes. -/
def outcomeResult (l : Nat) (o : LaunchOutcome) : LaunchResult :=
  match o with
  | .ok => .got l
  | .failed m => .failure (launchFailMessage m)

/-- Completion of the in-flight launch: on success the instance is
published and the `finally` clears the promise (no `await` between the
two); on failure the instance stays null and the promise is cleared.  All
callers awaiting the promise observe the same settled result. -/
def completeStep (s : GState) (o : LaunchOutcome) : GState :=
  match s.ticket with
  | none => s
  | some l =>
    { s with
      session := (match o with | .ok => some l | .failed _ => none)
      ticket := none
      callers := fun j =>
        match s.callers j with
        | .waiting l2 => if l2 = l then .done (outcomeResult l o) else .waiting l2
        | c => c }

/-! ## Concrete fixtures -/

/-- A stats evaluation result with nothing missing. -/
def sampleStats : RawStats := { codeBlocks := 1, images := 0, headings := 2, missingImages := [] }

/-- An environment in which every effectful step succeeds. -/
def happyEnv : PdfEnv :=
  { browserHealthy := true
    launch := .ok ()
    newPage := .ok ()
    ensureDir := fun _ => .ok ()
    marked := fun _ => .ok "<h1>Title</h1>"
    loadTheme := fun _ => .ok "body \x7b color: #000; \x7d"
    loadCodeTheme := fun _ => "pre code \x7b display: block; \x7d"
    setViewport := .ok ()
    setContent := fun _ => .ok ()
    highlightSettled := true
    pdf := .ok 1000
    statsEval := .ok sampleStats
    currentDate := "1/1/2026"
    duration := 42 }

/-- Like `happyEnv`, but `page.evaluate` in `gatherStats` fails. -/
def statsFailEnv : PdfEnv := { happyEnv with statsEval := .error "Execution context was destroyed" }

/-- Like `happyEnv`, but `page.pdf` fails (disk full). -/
def diskFullEnv : PdfEnv := { happyEnv with pdf := .error "ENOSPC: no space left on device" }

/-- A minimal conversion configuration. -/
def baseConfig : PdfGenerationConfig :=
  { markdownContent := "# Title", outputPath := "/tmp/out.pdf", theme := "github" }

/-- Browser up, no page outstanding. -/
def idlePState : PState := { rm := { browser := some (), activePages := 0 }, releaseCalls := 0, pdfCalls := [] }

/-- Browser up, one page held by another in-flight request. -/
def busyPState : PState := { rm := { browser := some (), activePages := 1 }, releaseCalls := 0, pdfCalls := [] }

/-! ## Claim theorems -/

/-- C1: a conversion whose artifact-production step (`page.pdf`) fails after
page acquisition does surface the error, but it executes `releasePage`
TWICE for the single acquired handle — once in the catch block and once in
the finally block, because the catch block does not clear the `page`
variable.  With one page held by another request (`ActivePageCount = 1`
before the call), the counter ends at 0, below its pre-call value, instead
of returning to 1.  This contradicts the claim's exactly-once release. -/
theorem generatePdf_artifact_failure_double_release :
    (generatePdf diskFullEnv baseConfig busyPState).1
        = Except.error "ENOSPC: no space left on device"
    ∧ (generatePdf diskFullEnv baseConfig busyPState).2.releaseCalls = 2
    ∧ (generatePdf diskFullEnv baseConfig busyPState).2.rm.activePages = 0
    ∧ busyPState.rm.activePages = 1 :=
  ⟨rfl, rfl, rfl, rfl⟩

/-- C3 counterexample: releasing the same handle twice is NOT a no-op on
the second release.  From a state with two outstanding pages, the second
`releasePage` decrements the counter again (1 → 0): `releasePage` keeps no
per-handle flag, so the double release changes the state a second time. -/
theorem releasePage_second_release_decrements :
    releasePage (releasePage { browser := some (), activePages := 2 })
        ≠ releasePage { browser := some (), activePages := 2 }
    ∧ (releasePage (releasePage { browser := some (), activePages := 2 })).activePages = 0
    ∧ (releasePage { browser := some (), activePages := 2 }).activePages = 1 := by
  refine ⟨?_, rfl, rfl⟩
  intro h
  have := congrArg RMState.activePages h
  simp [releasePage] at this

/-- C3 amended: a double release never throws (`releasePage` is total: the
`page.close` error is swallowed) and the counter never goes below zero
(`Math.max(0, ·)`), but release is not idempotent per handle — from any
state with at least two outstanding pages, releasing the same handle twice
decrements the counter by exactly two. -/
theorem releasePage_clamped_not_idempotent (s : RMState) (h : 0 ≤ s.activePages) :
    0 ≤ (releasePage s).activePages
    ∧ 0 ≤ (releasePage (releasePage s)).activePages
    ∧ (2 ≤ s.activePages →
        (releasePage (releasePage s)).activePages = s.activePages - 2) := by
  refine ⟨?_, ?_, ?_⟩
  · simp [releasePage]
  · simp [releasePage]
  · intro h2
    simp only [releasePage]
    omega

/-- Witness for C3 amended at a concrete state with two outstanding pages. -/
theorem releasePage_clamped_not_idempotent_witness :
    (0 ≤ (2 : Int))
    ∧ (0 ≤ (releasePage { browser := some (), activePages := 2 }).activePages
       ∧ 0 ≤ (releasePage (releasePage { browser := some (), activePages := 2 })).activePages
       ∧ (2 ≤ ({ browser := some (), activePages := 2 } : RMState).activePages →
           (releasePage (releasePage { browser := some (), activePages := 2 })).activePages
             = ({ browser := some (), activePages := 2 } : RMState).activePages - 2)) :=
  ⟨by decide, releasePage_clamped_not_idempotent { browser := some (), activePages := 2 } (by decide)⟩

/-- C4: a call to `acquirePage` made while `ActivePageCount` is at or above
`MAX_CONCURRENT_PAGES` fails immediately with the quota-exceeded error —
the check precedes any browser interaction, so nothing is enqueued and both
the counter and the browser instance are returned unchanged. -/
theorem acquirePage_quota_fail_fast (env : PdfEnv) (s : RMState)
    (h : MAX_CONCURRENT_PAGES ≤ s.activePages) :
    acquirePage env s = (Except.error quotaExceededMessage, s) := by
  simp [acquirePage, h]

/-- Witness for C4: the 11th caller with ten pages outstanding. -/
theorem acquirePage_quota_fail_fast_witness :
    MAX_CONCURRENT_PAGES ≤ ({ browser := some (), activePages := 10 } : RMState).activePages
    ∧ acquirePage happyEnv { browser := some (), activePages := 10 }
        = (Except.error quotaExceededMessage, { browser := some (), activePages := 10 }) :=
  ⟨by decide, acquirePage_quota_fail_fast happyEnv _ (by decide)⟩

/-- C6 counterexample: a stats-collection failure after the PDF artifact is
produced is NOT downgraded — `gatherStats` has no try/catch, so the error
propagates and the request fails (the claim says the request still
completes successfully with empty stats and a warning). -/
theorem generatePdf_stats_failure_is_fatal :
    (generatePdf statsFailEnv baseConfig idlePState).1
        = Except.error "Execution context was destroyed"
    ∧ (generatePdf statsFailEnv baseConfig idlePState).2.releaseCalls = 2 :=
  ⟨rfl, rfl⟩

/-- C6 amended: if the stats-collection stage fails after the artifact was
produced, the error propagates and the conversion request fails; the page
handle is still released (twice, via the catch/finally pair).  Only missing
images are reported as warnings, inside a successful stats pass. -/
theorem generatePdf_stats_failure_propagates
    (env : PdfEnv) (config : PdfGenerationConfig) (w : PState) (s1 : RMState)
    (html css e : String) (n : Nat)
    (hdir : ∀ x, env.ensureDir x = Except.ok ())
    (hmk : ∀ x, env.marked x = Except.ok html)
    (hth : ∀ x, env.loadTheme x = Except.ok css)
    (hacq : acquirePage env w.rm = (Except.ok (), s1))
    (hvp : env.setViewport = Except.ok ())
    (hsc : ∀ x, env.setContent x = Except.ok ())
    (hpdf : env.pdf = Except.ok n)
    (hst : env.statsEval = Except.error e) :
    (generatePdf env config w).1 = Except.error e
    ∧ (generatePdf env config w).2.releaseCalls = w.releaseCalls + 2 := by
  simp [generatePdf, hdir, hmk, hth, hacq, hvp, hsc, hpdf, gatherStats, hst,
    errorCleanup, doReleasePage]

/-- Witness for C6 amended: concrete run in which only `page.evaluate`
fails. -/
theorem generatePdf_stats_failure_propagates_witness :
    (∀ x, statsFailEnv.ensureDir x = Except.ok ())
    ∧ (∀ x, statsFailEnv.marked x = Except.ok "<h1>Title</h1>")
    ∧ (∀ x, statsFailEnv.loadTheme x = Except.ok "body \x7b color: #000; \x7d")
    ∧ acquirePage statsFailEnv idlePState.rm
        = (Except.ok (), { browser := some (), activePages := 1 })
    ∧ statsFailEnv.setViewport = Except.ok ()
    ∧ (∀ x, statsFailEnv.setContent x = Except.ok ())
    ∧ statsFailEnv.pdf = Except.ok 1000
    ∧ statsFailEnv.statsEval = Except.error "Execution context was destroyed"
    ∧ (generatePdf statsFailEnv baseConfig idlePState).1
        = Except.error "Execution context was destroyed"
    ∧ (generatePdf statsFailEnv baseConfig idlePState).2.releaseCalls
        = idlePState.releaseCalls + 2 :=
  ⟨fun _ => rfl, fun _ => rfl, fun _ => rfl, rfl, rfl, fun _ => rfl, rfl, rfl,
    (generatePdf_stats_failure_propagates statsFailEnv baseConfig idlePState
      { browser := some (), activePages := 1 } "<h1>Title</h1>"
      "body \x7b color: #000; \x7d" "Execution context was destroyed" 1000
      (fun _ => rfl) (fun _ => rfl) (fun _ => rfl) rfl rfl (fun _ => rfl) rfl rfl).1,
    (generatePdf_stats_failure_propagates statsFailEnv baseConfig idlePState
      { browser := some (), activePages := 1 } "<h1>Title</h1>"
      "body \x7b color: #000; \x7d" "Execution context was destroyed" 1000
      (fun _ => rfl) (fun _ => rfl) (fun _ => rfl) rfl rfl (fun _ => rfl) rfl rfl).2⟩

/-- C7 counterexample: a successful conversion reports `pages = 0`, not the
fallback estimate — `gatherStats` hard-codes `pages: 0` and the pipeline
passes it through, while `estimatePageCount` (which would give 1 for a
1000-byte artifact, and is never less than 1) is never invoked. -/
theorem generatePdf_success_pages_not_estimate :
    (generatePdf happyEnv baseConfig idlePState).1
        = Except.ok { status := "success", output_path := "/tmp/out.pdf",
                      file_size := "1000 B", pages := 0, duration_ms := 42,
                      metadata := none }
    ∧ estimatePageCount 1000 = 1 :=
  ⟨rfl, rfl⟩

/-- C7 amended: every successful conversion reports `pages = 0` (the
hard-coded value from `gatherStats`); the unused fallback helper
`estimatePageCount` computes `max 1 ⌈bytes / (75·1024)⌉` and is therefore
always at least 1. -/
theorem generatePdf_success_reports_zero_pages
    (env : PdfEnv) (config : PdfGenerationConfig) (w : PState) (s1 : RMState)
    (html css : String) (n : Nat) (raw : RawStats)
    (hdir : ∀ x, env.ensureDir x = Except.ok ())
    (hmk : ∀ x, env.marked x = Except.ok html)
    (hth : ∀ x, env.loadTheme x = Except.ok css)
    (hacq : acquirePage env w.rm = (Except.ok (), s1))
    (hvp : env.setViewport = Except.ok ())
    (hsc : ∀ x, env.setContent x = Except.ok ())
    (hpdf : env.pdf = Except.ok n)
    (hst : env.statsEval = Except.ok raw) :
    (∃ r, (generatePdf env config w).1 = Except.ok r ∧ r.pages = 0)
    ∧ (∀ m, 1 ≤ estimatePageCount m) := by
  constructor
  · simp only [generatePdf, hdir, hmk, hth, hacq, hvp, hsc, hpdf, gatherStats, hst]
    split
    · exact ⟨_, rfl, rfl⟩
    · exact ⟨_, rfl, rfl⟩
  · intro m
    simp [estimatePageCount]

/-- Witness for C7 amended on the all-success fixture. -/
theorem generatePdf_success_reports_zero_pages_witness :
    (∀ x, happyEnv.ensureDir x = Except.ok ())
    ∧ (∀ x, happyEnv.marked x = Except.ok "<h1>Title</h1>")
    ∧ (∀ x, happyEnv.loadTheme x = Except.ok "body \x7b color: #000; \x7d")
    ∧ acquirePage happyEnv idlePState.rm
        = (Except.ok (), { browser := some (), activePages := 1 })
    ∧ happyEnv.setViewport = Except.ok ()
    ∧ (∀ x, happyEnv.setContent x = Except.ok ())
    ∧ happyEnv.pdf = Except.ok 1000
    ∧ happyEnv.statsEval = Except.ok sampleStats
    ∧ ((∃ r, (generatePdf happyEnv baseConfig idlePState).1 = Except.ok r ∧ r.pages = 0)
       ∧ ∀ m, 1 ≤ estimatePageCount m) :=
  ⟨fun _ => rfl, fun _ => rfl, fun _ => rfl, rfl, rfl, fun _ => rfl, rfl, rfl,
    generatePdf_success_reports_zero_pages happyEnv baseConfig idlePState
      { browser := some (), activePages := 1 } "<h1>Title</h1>"
      "body \x7b color: #000; \x7d" 1000 sampleStats
      (fun _ => rfl) (fun _ => rfl) (fun _ => rfl) rfl rfl (fun _ => rfl) rfl rfl⟩

/-- A content-acquisition environment whose file and URL reads fail. -/
def emptyFsEnv : ConvertEnv :=
  { readMarkdownFile := fun p => .error ("Markdown file not found: " ++ p)
    fetchMarkdownUrl := fun u => .error ("Failed to fetch markdown from URL: " ++ u) }

/-- C5: when the number of truthy input sources is zero or at least two,
`convertMarkdownToPdf` returns the structured validation error (status
error with message and suggestion) and the threaded state is returned
untouched — no browser launch, no page acquisition, no counter change. -/
theorem convert_rejects_invalid_source_count
    (cenv : ConvertEnv) (penv : PdfEnv) (input : MarkdownToPdfInput) (w : PState)
    (h : ([input.markdown_content, input.markdown_file_path, input.markdown_url].filter
            jsTruthy).length = 0
       ∨ 2 ≤ ([input.markdown_content, input.markdown_file_path, input.markdown_url].filter
            jsTruthy).length) :
    (convertMarkdownToPdf cenv penv input w).2 = w
    ∧ (([input.markdown_content, input.markdown_file_path, input.markdown_url].filter
          jsTruthy).length = 0 →
        (convertMarkdownToPdf cenv penv input w).1
          = ConvertResponse.error "No input source provided"
              "Provide one of: markdown_content, markdown_file_path, or markdown_url")
    ∧ (2 ≤ ([input.markdown_content, input.markdown_file_path, input.markdown_url].filter
          jsTruthy).length →
        (convertMarkdownToPdf cenv penv input w).1
          = ConvertResponse.error "Multiple input sources provided"
              "Provide only ONE of: markdown_content, markdown_file_path, or markdown_url") := by
  rcases h with h0 | h2
  · refine ⟨?_, fun _ => ?_, fun hc => by omega⟩ <;>
      simp [convertMarkdownToPdf, validateInputSource, h0]
  · have hne : ¬(([input.markdown_content, input.markdown_file_path,
        input.markdown_url].filter jsTruthy).length = 0) := by omega
    have hgt : ([input.markdown_content, input.markdown_file_path,
        input.markdown_url].filter jsTruthy).length > 1 := by omega
    refine ⟨?_, fun hc => by omega, fun _ => ?_⟩ <;>
      simp [convertMarkdownToPdf, validateInputSource, hne, hgt]

/-- Witness for C5: no source provided at all. -/
theorem convert_rejects_invalid_source_count_witness :
    (([(none : Option String), none, none].filter jsTruthy).length = 0
      ∨ 2 ≤ ([(none : Option String), none, none].filter jsTruthy).length)
    ∧ (convertMarkdownToPdf emptyFsEnv happyEnv { output_path := "/tmp/out.pdf" }
        idlePState).2 = idlePState
    ∧ (convertMarkdownToPdf emptyFsEnv happyEnv { output_path := "/tmp/out.pdf" }
        idlePState).1
        = ConvertResponse.error "No input source provided"
            "Provide one of: markdown_content, markdown_file_path, or markdown_url" :=
  ⟨Or.inl rfl,
    (convert_rejects_invalid_source_count emptyFsEnv happyEnv
      { output_path := "/tmp/out.pdf" } idlePState (Or.inl rfl)).1,
    (convert_rejects_invalid_source_count emptyFsEnv happyEnv
      { output_path := "/tmp/out.pdf" } idlePState (Or.inl rfl)).2.1 rfl⟩

/-- C10: whenever validation passes and the resolved markdown content trims
to the empty string, `convertMarkdownToPdf` returns the structured
"Markdown content is empty" error with the threaded state untouched (the
pipeline never runs); furthermore an empty string supplied as
`markdown_content` is falsy and counts as an absent source during the
exactly-one-source validation. -/
theorem convert_blank_content_rejected
    (cenv : ConvertEnv) (penv : PdfEnv) (input : MarkdownToPdfInput) (w : PState)
    (c : String)
    (hv : (validateInputSource input.markdown_content input.markdown_file_path
            input.markdown_url).valid = true)
    (hr : resolveContent cenv input = Sum.inr c)
    (hblank : jsTrim c = "") :
    convertMarkdownToPdf cenv penv input w
      = (ConvertResponse.error "Markdown content is empty"
          "Provide non-empty markdown content to convert", w)
    ∧ jsTruthy (some "") = false
    ∧ validateInputSource (some "") none none
        = { valid := false, error := some "No input source provided",
            suggestion := some "Provide one of: markdown_content, markdown_file_path, or markdown_url" } := by
  refine ⟨?_, rfl, rfl⟩
  simp [convertMarkdownToPdf, hv, hr, hblank]

/-- Witness for C10: whitespace-only inline content. -/
theorem convert_blank_content_rejected_witness :
    (validateInputSource (some "   ") none none).valid = true
    ∧ resolveContent emptyFsEnv
        { markdown_content := some "   ", output_path := "/tmp/out.pdf" }
        = Sum.inr "   "
    ∧ jsTrim "   " = ""
    ∧ convertMarkdownToPdf emptyFsEnv happyEnv
        { markdown_content := some "   ", output_path := "/tmp/out.pdf" } idlePState
        = (ConvertResponse.error "Markdown content is empty"
            "Provide non-empty markdown content to convert", idlePState) :=
  ⟨rfl, rfl, rfl,
    (convert_blank_content_rejected emptyFsEnv happyEnv
      { markdown_content := some "   ", output_path := "/tmp/out.pdf" } idlePState
      "   " rfl rfl rfl).1⟩

/-- The depth filter applied inside the `generateToc` scan loop is the same
as filtering the full match list afterwards: skipped matches still advance
the scan, so the extraction is independent of the filter. -/
theorem tocScanAux_eq_filter (maxDepth : Nat) :
    ∀ (fuel : Nat) (cs : List Char),
      tocScanAux maxDepth fuel cs
        = ((scanHeadings fuel cs).filter (fun m => m.1 ≤ maxDepth)).map
            (fun m => mkHeading m.1 m.2) := by
  intro fuel
  induction fuel with
  | zero => intro cs; simp [tocScanAux, scanHeadings]
  | succ n ih =>
    intro cs
    cases cs with
    | nil => simp [tocScanAux, scanHeadings]
    | cons c rest =>
      simp only [tocScanAux, scanHeadings]
      cases hma : matchHeadingAt (c :: rest) with
      | none => simpa using ih rest
      | some t =>
        obtain ⟨lvl, body, rest2⟩ := t
        by_cases hd : lvl ≤ maxDepth
        · simp [hd, ih rest2, List.filter_cons]
        · simp [hd, ih rest2, List.filter_cons]

/-- C8: TOC generation.  For headings `H1("A"), H2("B")` with depth 2 the
output is a two-level nested list whose second item sits in a nested `<ul>`
under the first; with depth 1 the `H2` is excluded entirely.  In general a
heading match contributes to the TOC exactly when its level is at most the
configured depth, every TOC entry's anchor id is derived from its text by
the lower-case / collapse-whitespace-to-hyphens / strip-non-word-non-hyphen
slug, and colliding anchors of distinct headings (here `A!` and `A?`, both
slugging to `a`) are kept without de-duplication. -/
theorem generateToc_spec :
    generateToc "<h1>A</h1><h2>B</h2>" 2
        = "<nav class=\"toc\"><div class=\"toc-title\">Table of Contents</div><ul><li><a href=\"#a\">A</a></li><ul><li><a href=\"#b\">B</a></li></ul></ul></nav>"
    ∧ generateToc "<h1>A</h1><h2>B</h2>" 1
        = "<nav class=\"toc\"><div class=\"toc-title\">Table of Contents</div><ul><li><a href=\"#a\">A</a></li></ul></nav>"
    ∧ (∀ (html : String) (maxDepth : Nat),
        tocHeadings html maxDepth
          = ((extractHeadings html).filter (fun m => m.1 ≤ maxDepth)).map
              (fun m => mkHeading m.1 m.2))
    ∧ (∀ (html : String) (maxDepth : Nat),
        (tocHeadings html maxDepth).all (fun h => h.id == slugify h.text))
    ∧ (tocHeadings "<h1>A!</h1><h1>A?</h1>" 6).map (fun h => h.id) = ["a", "a"]
    ∧ (tocHeadings "<h1>A!</h1><h1>A?</h1>" 6).map (fun h => h.text) = ["A!", "A?"] := by
  refine ⟨by decide, by decide, ?_, ?_, by decide, by decide⟩
  · intro html maxDepth
    exact tocScanAux_eq_filter maxDepth html.data.length html.data
  · intro html maxDepth
    rw [show tocHeadings html maxDepth
        = tocScanAux maxDepth html.data.length html.data from rfl,
      tocScanAux_eq_filter]
    rw [List.all_eq_true]
    intro h hm
    rw [List.mem_map] at hm
    obtain ⟨m, _, hmk⟩ := hm
    subst hmk
    exact beq_self_eq_true _

/-- Header cells exercising all four template placeholders. -/
def hfFixture : HeaderFooter :=
  { left := some "\x7bpage\x7d of \x7btotal\x7d", center := some "\x7bdate\x7d",
    right := some "\x7btitle\x7d" }

/-- `baseConfig` with a header, so the pipeline formats a header template. -/
def hdrConfig : PdfGenerationConfig := { baseConfig with header := some hfFixture }

set_option maxRecDepth 16384 in
/-- C9: `replaceTemplateVariables` on `"{page} of {total}"` with page 2 and
total 5 yields `"2 of 5"`; an unset `{date}` defaults to the current date
and an unset `{title}` defaults to `"Document"`.  `formatHeaderFooter`
applies this substitution to every cell before handing the string to the
renderer: in its output no placeholder survives, the current date and the
title default appear, and the pipeline's `page.pdf` call receives exactly
`formatHeaderFooter` applied to the configured header. -/
theorem headerFooter_template_substitution :
    replaceTemplateVariables "\x7bpage\x7d of \x7btotal\x7d"
        { page := some (.num 2), total := some (.num 5) } "1/1/2026" = "2 of 5"
    ∧ replaceTemplateVariables "\x7bdate\x7d" {} "1/1/2026" = "1/1/2026"
    ∧ replaceTemplateVariables "\x7btitle\x7d" {} "1/1/2026" = "Document"
    ∧ strContains (formatHeaderFooter hfFixture defaultHeaderFooterStyle "1/1/2026")
        "\x7bpage\x7d" = false
    ∧ strContains (formatHeaderFooter hfFixture defaultHeaderFooterStyle "1/1/2026")
        "\x7btotal\x7d" = false
    ∧ strContains (formatHeaderFooter hfFixture defaultHeaderFooterStyle "1/1/2026")
        "\x7bdate\x7d" = false
    ∧ strContains (formatHeaderFooter hfFixture defaultHeaderFooterStyle "1/1/2026")
        "\x7btitle\x7d" = false
    ∧ strContains (formatHeaderFooter hfFixture defaultHeaderFooterStyle "1/1/2026")
        "1/1/2026" = true
    ∧ strContains (formatHeaderFooter hfFixture defaultHeaderFooterStyle "1/1/2026")
        "Document" = true
    ∧ (generatePdf happyEnv hdrConfig idlePState).2.pdfCalls.map
        (fun a => a.headerTemplate)
        = [some (formatHeaderFooter hfFixture defaultHeaderFooterStyle "1/1/2026")] := by
  refine ⟨by decide, by decide, by decide, by decide, by decide, by decide, by decide,
    by decide, by decide, by decide⟩

/-- Invariant of the initialization scenario (no session, no launch in
flight, callers arriving): either nothing has happened yet, or exactly one
launch (id 0) is in flight, its promise is the only ticket, and every
caller is still arriving or already awaiting that same ticket. -/
def SingleFlightInv (s : GState) : Prop :=
  (s.ticket = none ∧ s.launchCount = 0 ∧ s.session = none
    ∧ ∀ i, s.callers i = CallerPhase.start)
  ∨ (s.ticket = some 0 ∧ s.launchCount = 1 ∧ s.session = none
    ∧ ∀ i, s.callers i = CallerPhase.start ∨ s.callers i = CallerPhase.waiting 0)

/-- The initial state satisfies the invariant. -/
theorem singleFlightInv_init : SingleFlightInv initGState :=
  Or.inl ⟨rfl, rfl, rfl, fun _ => rfl⟩

/-- One atomic `getBrowser` prefix preserves the invariant: the first
arriving caller creates launch 0 and awaits it; every later caller finds
the ticket and awaits the same launch without creating another. -/
theorem singleFlightInv_startStep (s : GState) (i : Nat) (h : SingleFlightInv s) :
    SingleFlightInv (startStep s i) := by
  rcases h with ⟨ht, hl, hs, hc⟩ | ⟨ht, hl, hs, hc⟩
  · right
    refine ⟨?_, ?_, ?_, ?_⟩ <;> simp [startStep, hc i, ht, hs, hl, updateCaller]
    intro j
    by_cases hij : j = i
    · simp [hij]
    · simp [hij, hc j]
  · rcases hci : s.callers i with h1 | l | sid | r
    · right
      refine ⟨?_, ?_, ?_, ?_⟩ <;> simp [startStep, hci, ht, hs, hl, updateCaller]
      intro j
      by_cases hij : j = i
      · simp [hij]
      · simpa [hij] using hc j
    · right; exact ⟨by simp [startStep, hci, ht], by simp [startStep, hci, ht, hl],
        by simp [startStep, hci, ht, hs], by simp only [startStep, hci]; exact hc⟩
    · right; exact ⟨by simp [startStep, hci, ht], by simp [startStep, hci, ht, hl],
        by simp [startStep, hci, ht, hs], by simp only [startStep, hci]; exact hc⟩
    · right; exact ⟨by simp [startStep, hci, ht], by simp [startStep, hci, ht, hl],
        by simp [startStep, hci, ht, hs], by simp only [startStep, hci]; exact hc⟩

/-- A pointwise update with a non-`start` value never moves a caller back
to `start`. -/
theorem updateCaller_ne_start (f : Nat → CallerPhase) (i j : Nat) (v : CallerPhase)
    (hv : v ≠ CallerPhase.start) (h : f i ≠ CallerPhase.start) :
    updateCaller f j v i ≠ CallerPhase.start := by
  unfold updateCaller
  by_cases hij : i = j <;> simp [hij, hv, h]

/-- `startStep` never moves a caller back to `start`. -/
theorem startStep_preserves_notStart (s : GState) (i j : Nat)
    (h : s.callers i ≠ CallerPhase.start) :
    (startStep s j).callers i ≠ CallerPhase.start := by
  rcases hcj : s.callers j with h1 | l | sid | r
  · rcases ht : s.ticket with _ | l
    · rcases hs : s.session with _ | sid
      · simpa [startStep, hcj, ht, hs] using
          updateCaller_ne_start s.callers i j _ (by simp) h
      · simpa [startStep, hcj, ht, hs] using
          updateCaller_ne_start s.callers i j _ (by simp) h
    · simpa [startStep, hcj, ht] using
        updateCaller_ne_start s.callers i j _ (by simp) h
  · simpa [startStep, hcj] using h
  · simpa [startStep, hcj] using h
  · simpa [startStep, hcj] using h

/-- The invariant holds after any interleaving of arrivals. -/
theorem foldl_singleFlightInv (ord : List Nat) (s : GState) (h : SingleFlightInv s) :
    SingleFlightInv (ord.foldl startStep s) := by
  induction ord generalizing s with
  | nil => exact h
  | cons j rest ih => exact ih _ (singleFlightInv_startStep s j h)

/-- A caller that has already arrived stays arrived under further steps. -/
theorem foldl_preserves_notStart (ord : List Nat) (s : GState) (i : Nat)
    (h : s.callers i ≠ CallerPhase.start) :
    (ord.foldl startStep s).callers i ≠ CallerPhase.start := by
  induction ord generalizing s with
  | nil => exact h
  | cons j rest ih => exact ih _ (startStep_preserves_notStart s i j h)

/-- Under the invariant, a caller that executes its `getBrowser` prefix is
no longer at `start` afterwards. -/
theorem startStep_self_notStart (s : GState) (i : Nat) (hinv : SingleFlightInv s) :
    (startStep s i).callers i ≠ CallerPhase.start := by
  rcases hinv with ⟨ht, hl, hs, hc⟩ | ⟨ht, hl, hs, hc⟩
  · have h1 : (startStep s i).callers i = CallerPhase.waiting s.launchCount := by
      simp [startStep, hc i, ht, hs, updateCaller]
    rw [h1]
    simp
  · rcases hc i with hstart | hwait
    · have h1 : (startStep s i).callers i = CallerPhase.waiting 0 := by
        simp [startStep, hstart, ht, updateCaller]
      rw [h1]
      simp
    · have h1 : startStep s i = s := by simp [startStep, hwait]
      rw [h1, hwait]
      simp

/-- Every caller scheduled somewhere in the interleaving has arrived by the
end of it. -/
theorem foldl_mem_notStart (ord : List Nat) (s : GState) (i : Nat)
    (hm : i ∈ ord) (hinv : SingleFlightInv s) :
    (ord.foldl startStep s).callers i ≠ CallerPhase.start := by
  induction ord generalizing s with
  | nil => cases hm
  | cons j rest ih =>
    rcases List.mem_cons.mp hm with rfl | hmem
    · exact foldl_preserves_notStart rest (startStep s i) i
        (startStep_self_notStart s i hinv)
    · exact ih _ hmem (singleFlightInv_startStep s j hinv)

/-- C2: starting with no session and no launch in flight, any interleaving
of K concurrent `getBrowser` arrivals creates exactly one launch; the
launch promise (id 0) is the only ticket ever outstanding — in every
reachable arrival state the launch count is at most one and every waiting
caller waits on the published ticket — and when the launch settles, all K
callers observe the same result (the same session on success, the same
failure otherwise). -/
theorem getBrowser_single_flight (K : Nat) (order : List Nat) (o : LaunchOutcome)
    (hK : 0 < K) (horder : ∀ i, i < K → i ∈ order) :
    ((order.foldl startStep initGState).launchCount = 1
     ∧ (order.foldl startStep initGState).ticket = some 0
     ∧ (∀ i, i < K →
        (order.foldl startStep initGState).callers i = CallerPhase.waiting 0))
    ∧ (∀ ord : List Nat,
        (ord.foldl startStep initGState).launchCount ≤ 1
        ∧ (∀ i l, (ord.foldl startStep initGState).callers i = CallerPhase.waiting l →
            (ord.foldl startStep initGState).ticket = some l))
    ∧ ((completeStep (order.foldl startStep initGState) o).launchCount = 1
       ∧ (∀ i, i < K →
          (completeStep (order.foldl startStep initGState) o).callers i
            = CallerPhase.done (outcomeResult 0 o))) := by
  have hinv := foldl_singleFlightInv order initGState singleFlightInv_init
  have hns : ∀ i, i < K →
      (order.foldl startStep initGState).callers i ≠ CallerPhase.start :=
    fun i hi => foldl_mem_notStart order initGState i (horder i hi) singleFlightInv_init
  rcases hinv with ⟨ht, hl, hs, hc⟩ | ⟨ht, hl, hs, hc⟩
  · exact absurd (hc 0) (hns 0 hK)
  · have hwait : ∀ i, i < K →
        (order.foldl startStep initGState).callers i = CallerPhase.waiting 0 :=
      fun i hi => (hc i).resolve_left (hns i hi)
    refine ⟨⟨hl, ht, hwait⟩, ?_, ?_, ?_⟩
    · intro ord
      have hinv2 := foldl_singleFlightInv ord initGState singleFlightInv_init
      rcases hinv2 with ⟨ht2, hl2, _, hc2⟩ | ⟨ht2, hl2, _, hc2⟩
      · refine ⟨by omega, fun i l hw => ?_⟩
        rw [hc2 i] at hw
        cases hw
      · refine ⟨by omega, fun i l hw => ?_⟩
        rcases hc2 i with h | h <;> rw [h] at hw <;> cases hw
        exact ht2
    · simp [completeStep, ht, hl]
    · intro i hi
      simp [completeStep, ht, hwait i hi]

/-- Witness for C2: two concurrent callers, schedule `[0, 1]`, successful
launch. -/
theorem getBrowser_single_flight_witness :
    (0 < 2)
    ∧ (∀ i, i < 2 → i ∈ ([0, 1] : List Nat))
    ∧ (([0, 1].foldl startStep initGState).launchCount = 1
       ∧ ([0, 1].foldl startStep initGState).ticket = some 0
       ∧ ∀ i, i < 2 →
          ([0, 1].foldl startStep initGState).callers i = CallerPhase.waiting 0)
    ∧ ((completeStep ([0, 1].foldl startStep initGState) LaunchOutcome.ok).launchCount = 1
       ∧ ∀ i, i < 2 →
          (completeStep ([0, 1].foldl startStep initGState) LaunchOutcome.ok).callers i
            = CallerPhase.done (outcomeResult 0 LaunchOutcome.ok)) :=
  ⟨by decide, by decide,
    (getBrowser_single_flight 2 [0, 1] LaunchOutcome.ok (by decide) (by decide)).1,
    (getBrowser_single_flight 2 [0, 1] LaunchOutcome.ok (by decide) (by decide)).2.2⟩
